import Mathlib

/-!
Shallow embedding of the SMA (sustainability measurement agent) core: the run
orchestrator (`src/sma/sma.py`), the data model (`src/sma/model.py`) and the
versioned report store (`src/sma/report.py`).

Conventions of the embedding:
* Python exceptions are values of `PyError`; fallible code returns `Except`.
* `datetime.datetime` is `PyDateTime` (whole seconds since the epoch plus a
  microsecond part).  The strftime/strptime format `"%Y_%m_%d_%H_%M_%S"` is an
  injective rendering of the whole-second part of a timestamp; the embedding
  renders it as the whole-second count itself (`fmtSecond` / `parseSecond`),
  and as its decimal string where a string is required (`fmtSecondStr`).
* Python dicts with string keys are association lists with `dict.update`
  semantics (`dictSet`, `dictUpdate`); lookup is `List.lookup`.
* The filesystem is an explicit `FS` value threaded through the persistence
  code; `random.random()`-derived values and `datetime.now()` samples are
  parameters of the embedded functions (`runHash`, `clock`).
* Side effects the claims speak about (observer notifications, sleeps,
  measurement attempts, persistence) are recorded in a trace of `Action`s.
-/

namespace SMA

/-- Python exception values, distinguished by exception class. -/
inductive PyError where
  | assertionError (msg : String)
  | valueError (msg : String)
  | attributeError (msg : String)
  | keyError (msg : String)
  | moduleNotFoundError (msg : String)
  | fileNotFoundError (msg : String)
  | jsonError (msg : String)
deriving DecidableEq, Repr

/-- `datetime.datetime`, at the resolution the claims need: whole seconds
since the epoch plus a microsecond part below one second. -/
structure PyDateTime where
  sec : Int
  micro : Nat
deriving DecidableEq, Repr

/-- A datetime as a microsecond count, for comparisons. -/
def PyDateTime.toMicros (d : PyDateTime) : Int := d.sec * 1000000 + d.micro

/-- Ordering of datetimes. -/
def PyDateTime.le (a b : PyDateTime) : Prop := a.toMicros ≤ b.toMicros

instance : DecidablePred fun p : PyDateTime × PyDateTime => p.1.le p.2 :=
  fun p => inferInstanceAs (Decidable (p.1.toMicros ≤ p.2.toMicros))

/-- `strftime("%Y_%m_%d_%H_%M_%S")` renders exactly the whole-second part of a
timestamp, injectively; the embedding keeps the rendering structured, as the
whole-second count. -/
def fmtSecond (d : PyDateTime) : Int := d.sec

/-- `datetime.strptime(s, "%Y_%m_%d_%H_%M_%S")`: recovers the whole second;
the microsecond part of the parsed datetime is zero. -/
def parseSecond (s : Int) : PyDateTime := ⟨s, 0⟩

/-- The same strftime rendering where the source needs the actual string
(template substitution contexts): the decimal second count. -/
def fmtSecondStr (d : PyDateTime) : String := toString d.sec

/-- `str(timedelta.total_seconds())` as a template-context value; the decimal
rendering of the exact microsecond count stands in for the float string. -/
def renderSeconds (micros : Int) : String := toString micros

/-- `str()` of a Python dict value appearing in a template context; no claim
depends on the exact rendering. -/
def renderDict (d : List (String × String)) : String :=
  "\x7b" ++ String.intercalate ", " (d.map (fun p => p.1 ++ ": " ++ p.2)) ++ "\x7d"

/-- `dict[k] = v` on an association list: replace in place when the key is
present (Python dicts keep insertion order), else append. -/
def dictSet (d : List (String × String)) (k v : String) : List (String × String) :=
  if d.any (fun p => p.1 = k) then
    d.map (fun p => if p.1 = k then (p.1, v) else p)
  else d ++ [(k, v)]

/-- `dict.update(kvs)` semantics on association lists. -/
def dictUpdate (d kvs : List (String × String)) : List (String × String) :=
  kvs.foldl (fun acc p => dictSet acc p.1 p.2) d

/-- `str.split(sep)` for a one-character separator, as Python defines it:
`"".split(sep) = [""]`, adjacent separators yield empty fields. -/
def splitOnChar (sep : Char) : List Char → List (List Char)
  | [] => [[]]
  | c :: cs =>
    let r := splitOnChar sep cs
    if c = sep then [] :: r
    else
      match r with
      | [] => [[c]]
      | h :: t => (c :: h) :: t

/-- `os.path.isabs` on POSIX: the path starts with the separator. -/
def pyIsAbs (s : String) : Bool := s.data.head? == some '/' 

/-- Whether a path ends with the separator (`s.endswith("/")`). -/
def endsWithSep (s : String) : Bool := s.data.getLast? = some '/'

/-- `os.path.join` on POSIX, for the two-argument joins in the source. -/
def osPathJoin (a b : String) : String :=
  if pyIsAbs b then b
  else if a = "" then b
  else if endsWithSep a then a ++ b
  else a ++ "/" ++ b

/-- Characters matched inside an identifier by the default
`string.Template` pattern (`[A-Za-z0-9_]`, case-insensitive matching). -/
def isIdentChar (c : Char) : Bool := c.isAlpha || c.isDigit || c = '_'

/-- Characters that may start a `string.Template` identifier. -/
def isIdentStart (c : Char) : Bool := c.isAlpha || c = '_'

/-- Longest prefix of identifier characters, and the remaining characters. -/
def spanIdent : List Char → List Char × List Char
  | [] => ([], [])
  | c :: cs =>
    if isIdentChar c then
      let p := spanIdent cs
      (c :: p.1, p.2)
    else ([], c :: cs)

/-- The braced form of the `string.Template` pattern: when the characters
after `${` start with an identifier immediately followed by `}`, return the
identifier and the characters after the closing brace. -/
def bracedRest (cs2 : List Char) : Option (List Char × List Char) :=
  match cs2 with
  | [] => none
  | e :: _ =>
    if isIdentStart e then
      match (spanIdent cs2).2 with
      | '}' :: cs3 => some ((spanIdent cs2).1, cs3)
      | _ => none
    else none

/-- `string.Template.safe_substitute` over the default `$`-delimited pattern:
`$$` is an escaped delimiter; `${ident}` and `$ident` are replaced by the
mapping value when `ident` is a key and left untouched otherwise; an invalid
`$` occurrence is left in place and scanning resumes after the `$`.  The
recursion is structural on a fuel argument so that the function computes in
the kernel; every step consumes at least one character per unit of fuel, so
fuel equal to the template length (as passed by `safeSubstitute`) never runs
out. -/
def safeSubAux (ctx : List (String × String)) : Nat → List Char → List Char
  | 0, _ => []
  | _ + 1, [] => []
  | fuel + 1, c :: cs =>
    if c = '$' then
      match cs with
      | [] => ['$']
      | d :: cs2 =>
        if d = '$' then '$' :: safeSubAux ctx fuel cs2
        else if d = '{' then
          match bracedRest cs2 with
          | some (ident, cs3) =>
            match ctx.lookup (String.mk ident) with
            | some v => v.data ++ safeSubAux ctx fuel cs3
            | none => '$' :: '{' :: (ident ++ '}' :: safeSubAux ctx fuel cs3)
          | none => '$' :: '{' :: safeSubAux ctx fuel cs2
        else if isIdentStart d then
          match ctx.lookup (String.mk (spanIdent (d :: cs2)).1) with
          | some v => v.data ++ safeSubAux ctx fuel (spanIdent (d :: cs2)).2
          | none => '$' :: ((spanIdent (d :: cs2)).1 ++ safeSubAux ctx fuel (spanIdent (d :: cs2)).2)
        else '$' :: d :: safeSubAux ctx fuel cs2
    else c :: safeSubAux ctx fuel cs

/-- `Template(template).safe_substitute(**ctx)`. -/
def safeSubstitute (ctx : List (String × String)) (template : String) : String :=
  String.mk (safeSubAux ctx template.data.length template.data)

/-! ## The data model (`src/sma/model.py`) -/

/-- `SMASession`: metadata about the measurement session.  `extras = None`
and `extras = {}` behave identically everywhere the source reads the field
(truthiness tests and `or {}`), so both are the empty list here. -/
structure SMASession where
  name : String
  extras : List (String × String) := []
deriving DecidableEq, Repr

/-- `SMASession.to_dict`: `{"session": name}` updated with the extras, then
with the given kwargs. -/
def SMASession.to_dict (s : SMASession) (kwargs : List (String × String)) :
    List (String × String) :=
  dictUpdate (dictUpdate [("session", s.name)] s.extras) kwargs

/-- `SMARun`: metadata about a specific measurement run. -/
structure SMARun where
  startTime : PyDateTime
  endTime : PyDateTime
  treatment_start : PyDateTime
  treatment_end : PyDateTime
  runHash : String
  user_data : Option (List (String × String)) := none
deriving DecidableEq, Repr

/-- `SMARun.duration().total_seconds()`, kept exact as a microsecond count. -/
def SMARun.durationMicros (r : SMARun) : Int :=
  r.endTime.toMicros - r.startTime.toMicros

/-- `SMARun.treatment_duration().total_seconds()`, exact microsecond count. -/
def SMARun.treatmentDurationMicros (r : SMARun) : Int :=
  r.treatment_end.toMicros - r.treatment_start.toMicros

/-- `SMARun.to_dict`: the literal dict built in the source, updated with the
given kwargs.  The timestamps are strftime strings, the durations
`str(total_seconds())`, `user_data` the dict (or `{}` when `None`). -/
def SMARun.to_dict (r : SMARun) (kwargs : List (String × String)) :
    List (String × String) :=
  dictUpdate [
    ("startTime", fmtSecondStr r.startTime),
    ("endTime", fmtSecondStr r.endTime),
    ("treatment_start", fmtSecondStr r.treatment_start),
    ("treatment_end", fmtSecondStr r.treatment_end),
    ("runHash", r.runHash),
    ("duration", renderSeconds r.durationMicros),
    ("treatment_duration", renderSeconds r.treatmentDurationMicros),
    ("user_data", renderDict (r.user_data.getD []))
  ] kwargs

/-- `ReportMetadata`: session plus run. -/
structure ReportMetadata where
  session : SMASession
  run : SMARun
deriving DecidableEq, Repr

/-- `ReportMetadata.to_dict`: an empty dict updated with the session dict,
the run dict and finally the kwargs. -/
def ReportMetadata.to_dict (m : ReportMetadata) (kwargs : List (String × String)) :
    List (String × String) :=
  dictUpdate (dictUpdate (dictUpdate [] (m.session.to_dict [])) (m.run.to_dict [])) kwargs

/-- `ObservationWindow`: left/right buffer and treatment duration, seconds. -/
structure ObservationWindow where
  left : Nat
  right : Nat
  duration : Nat
deriving DecidableEq, Repr

/-- `ObservationConfig`. -/
structure ObservationConfig where
  mode : String
  window : Option ObservationWindow
  module_trigger : Option String := none
deriving DecidableEq, Repr

/-- `ReportConfig` (`src/sma/model.py`): report format and path templates. -/
structure ReportConfig where
  format : String := "csv"
  location : String := "reports/${startTime}_${runHash}/"
  filename : String := "${name}.csv"
deriving DecidableEq, Repr

/-- Modelled from the spec: the `Config` container itself lives in
`src/sma/config.py`, which is not under `src/`; per the spec it is a plain
carrier of the configured observation settings, report settings, measurement
set and originating config file.  Only the fields the orchestrator and the
report store read are modelled; the measurement queries are passed to the
orchestrator separately (they hold functions). -/
structure Config where
  observation : ObservationConfig
  report : ReportConfig
  measurements : List String
  config_file : Option String := none
deriving DecidableEq, Repr

/-- The `SMAObserver` protocol's declared capability set: the lifecycle
events for which `model.py` declares a method. -/
def SMAObserver.events : List String :=
  ["onSetup", "onSessionStart", "onRunStart",
   "onLeftWindowStart", "onLeftWindowEnd",
   "onTreatmentStart", "onTreatmentEnd",
   "onRightWindowStart", "onRightWindowEnd",
   "onReport", "onRunEnd", "onSessionEnd", "onTeardown"]

/-! ## External collaborators and loaded modules -/

/-- A pandas data frame, at the granularity any claim observes: its row count
(`len(df)`) and its column names (`list(df.columns)`).  The CSV codec
(`to_csv` then `read_csv(index_col=0, parse_dates=True)`) is faithful at this
granularity. -/
structure DataFrame where
  nrows : Nat
  columns : List String
deriving DecidableEq, Repr

/-- An external measurement source (the opaque `MeasurementSource`
capability): `observe` and `label` either return a frame or raise a
`ServiceException`, modelled as `Except Unit`. -/
structure Measurement where
  observe : PyDateTime → PyDateTime → Except Unit DataFrame
  label : Int → Int → String → String → Except Unit DataFrame

/-- A loaded module instance, as the orchestrator observes it: whether it
exposes a callable `trigger`, and what that trigger returns. -/
structure ModuleInst where
  hasTrigger : Bool
  triggerResult : Option (List (String × String)) := none
deriving DecidableEq, Repr

/-- One entry of `config.modules`: the value of its optional `module` key
(`module_config.get("module")`).  The `config` sub-mapping is consumed only
by the module constructor, which the import environment models. -/
structure ModuleCfg where
  moduleName : Option String := none
deriving DecidableEq, Repr

/-! ## The on-disk model (`src/sma/report.py`) -/

/-- The `run.json` payload written by `ReportStore.persist`: timestamps as their
second-granular strftime renderings, durations as `total_seconds()` (kept
exact, in microseconds). -/
structure RunJson where
  startTime : Int
  endTime : Int
  treatment_start : Int
  treatment_end : Int
  runHash : String
  duration : Int
  treatment_duration : Int
  user_data : List (String × String)
  extras : Option (List (String × String)) := none
deriving DecidableEq, Repr

/-- One entry of the manifest's `data_files` index. -/
structure DataFileInfo where
  filename : String
  rows : Nat
  columns : List String
deriving DecidableEq, Repr

/-- `manifest.json`: schema version, creation stamp, format, the data-file
index and the metadata file names.  `version` and `format` are `Option`
because the loader reads them with `manifest.get(key, default)`. -/
structure Manifest where
  version : Option String
  created_at : Int
  format : Option String
  data_files : List (String × DataFileInfo)
  files_session : String
  files_run : String
  files_config : String
deriving DecidableEq, Repr

/-- Contents of a file, kept structured: the JSON and CSV payloads the
report store writes and reads. -/
inductive FsFile where
  | csv (df : DataFrame)
  | sessionJson (name : String) (extras : List (String × String))
  | runJson (r : RunJson)
  | manifestJson (m : Manifest)
  | configCopy
deriving DecidableEq, Repr

/-- The filesystem: written files, most recent write first, plus created
directories. -/
structure FS where
  files : List (String × FsFile)
  dirs : List String
deriving DecidableEq, Repr

/-- Read the file at a path (the most recent write wins). -/
def FS.read (fs : FS) (p : String) : Option FsFile := fs.files.lookup p

/-- Write (or overwrite) the file at a path. -/
def FS.write (fs : FS) (p : String) (f : FsFile) : FS := ⟨(p, f) :: fs.files, fs.dirs⟩

/-- `os.path.exists`. -/
def FS.pathExists (fs : FS) (p : String) : Bool :=
  fs.dirs.contains p || (fs.files.lookup p).isSome

/-- `os.makedirs` (creation of intermediate parents is not observable by any
claim and is not tracked). -/
def FS.mkdir (fs : FS) (p : String) : FS := ⟨fs.files, p :: fs.dirs⟩

/-! ## `Report` and `ReportIO` (`src/sma/report.py`) -/

/-- `ReportIO._validate_location`: a report location must be relative and
must contain no `..` path segment. -/
def validateLocation (location : String) : Except PyError Unit :=
  if pyIsAbs location then
    .error (.valueError ("Report location must be relative, not absolute: " ++ location))
  else if (splitOnChar '/' location.data).contains ['.', '.'] then
    .error (.valueError ("Report location contains unsafe .. component: " ++ location))
  else .ok ()

/-- `ReportIO._build_location_context`: empty, updated with the flattened
metadata when present. -/
def buildLocationContext (run_data : Option ReportMetadata) : List (String × String) :=
  match run_data with
  | some md => dictUpdate [] (md.to_dict [])
  | none => []

/-- `Report._calculate_location`: substitute the flattened metadata into the
configured location template, then validate the result. -/
def calculateLocation (locationTemplate : String) (metadata : ReportMetadata) :
    Except PyError String :=
  let context := buildLocationContext (some metadata)
  let location := safeSubstitute context locationTemplate
  match validateLocation location with
  | .error e => .error e
  | .ok _ => .ok location

/-- The in-memory `Report`: metadata, config, observation tables, and the
location computed and validated at construction. -/
structure Report where
  metadata : ReportMetadata
  config : Config
  observations : List (String × DataFrame)
  location : String
deriving DecidableEq, Repr

/-- `Report.__init__`: store the pieces and compute and validate the location
once; a path-safety violation raises before the report exists. -/
def Report.make (metadata : ReportMetadata) (config : Config)
    (data : List (String × DataFrame)) : Except PyError Report :=
  (calculateLocation config.report.location metadata).map
    (fun loc => ⟨metadata, config, data, loc⟩)

/-- `Report.measurments()` (spelling as in the source): the configured
measurement names. -/
def Report.measurments (r : Report) : List String := r.config.measurements

/-- `Report._get_or_make_report_location`. -/
def getOrMakeReportLocation (fs : FS) (r : Report) : FS × String :=
  if fs.pathExists r.location then (fs, r.location)
  else (fs.mkdir r.location, r.location)

/-- The data-file loop of `ReportStore.persist`: write one file per
measurement, recording filename, row count and column names; an unsupported
format raises, keeping the files already written. -/
def persistDataFiles (fs : FS) (data_dir fmt : String) :
    List (String × DataFrame) → FS × Except PyError (List (String × DataFileInfo))
  | [] => (fs, .ok [])
  | (name, df) :: rest =>
    let filename := name ++ "." ++ fmt
    let filepath := osPathJoin data_dir filename
    if fmt = "csv" then
      match persistDataFiles (fs.write filepath (.csv df)) data_dir fmt rest with
      | (fs2, .error e) => (fs2, .error e)
      | (fs2, .ok infos) => (fs2, .ok ((name, ⟨filename, df.nrows, df.columns⟩) :: infos))
    else (fs, .error (.valueError ("Unsupported report format: " ++ fmt)))

/-- `ReportIO.persist` (source class `ReportIO`): ensure the location and `data/` directories, write
the data files, then `session.json`, `run.json`, the config copy when the
originating config file exists, and the manifest last.  `created_at` is the
`datetime.now().isoformat()` stamp. -/
def ReportStore.persist (fs0 : FS) (report : Report)
    (extras : Option (List (String × String))) (created_at : Int) :
    FS × Except PyError String :=
  let fs1 := (getOrMakeReportLocation fs0 report).1
  let location := (getOrMakeReportLocation fs0 report).2
  let data_dir := osPathJoin location "data"
  let fs2 := if fs1.pathExists data_dir then fs1 else fs1.mkdir data_dir
  match persistDataFiles fs2 data_dir report.config.report.format report.observations with
  | (fs3, .error e) => (fs3, .error e)
  | (fs3, .ok data_files) =>
    let fs4 := fs3.write (osPathJoin location "session.json")
      (.sessionJson report.metadata.session.name report.metadata.session.extras)
    let run := report.metadata.run
    let fs5 := fs4.write (osPathJoin location "run.json")
      (.runJson ⟨fmtSecond run.startTime, fmtSecond run.endTime,
                 fmtSecond run.treatment_start, fmtSecond run.treatment_end,
                 run.runHash, run.durationMicros, run.treatmentDurationMicros,
                 run.user_data.getD [],
                 match extras with
                 | some e => if e.isEmpty then none else some e
                 | none => none⟩)
    let fs6 :=
      match report.config.config_file with
      | some p =>
        if fs5.pathExists p then fs5.write (osPathJoin location "config.yaml") .configCopy
        else fs5
      | none => fs5
    let manifest : Manifest :=
      ⟨some "1.1", created_at, some report.config.report.format, data_files,
       "session.json", "run.json", "config.yaml"⟩
    let fs7 := fs6.write (osPathJoin location "manifest.json") (.manifestJson manifest)
    (fs7, .ok location)

/-- The data-file loop shared by both decoders: read every file named by the
manifest index (both the csv branch and the unsupported-format fallback call
`read_csv`). -/
def loadDataFiles (fs : FS) (data_dir _fmt : String) :
    List (String × DataFileInfo) → Except PyError (List (String × DataFrame))
  | [] => .ok []
  | (name, info) :: rest =>
    let filepath := osPathJoin data_dir info.filename
    match fs.read filepath with
    | some (.csv df) =>
      match loadDataFiles fs data_dir _fmt rest with
      | .error e => .error e
      | .ok ds => .ok ((name, df) :: ds)
    | some _ => .error (.jsonError ("not a readable CSV file: " ++ filepath))
    | none => .error (.fileNotFoundError filepath)

/-- `ReportIO._load_v1_1`: decode session, run and data files named by the
manifest and rebuild the `Report`. -/
def ReportStore.loadV1_1 (fs : FS) (location : String) (manifest : Manifest)
    (config : Config) : Except PyError Report :=
  match fs.read (osPathJoin location manifest.files_session) with
  | some (.sessionJson name extras) =>
    let session : SMASession := ⟨name, extras⟩
    match fs.read (osPathJoin location manifest.files_run) with
    | some (.runJson rj) =>
      let run : SMARun :=
        ⟨parseSecond rj.startTime, parseSecond rj.endTime,
         parseSecond rj.treatment_start, parseSecond rj.treatment_end,
         rj.runHash, some rj.user_data⟩
      match loadDataFiles fs (osPathJoin location "data")
          (manifest.format.getD "csv") manifest.data_files with
      | .error e => .error e
      | .ok data => Report.make ⟨session, run⟩ config data
    | some _ => .error (.jsonError "run.json is not a JSON run record")
    | none => .error (.fileNotFoundError (osPathJoin location manifest.files_run))
  | some _ => .error (.jsonError "session.json is not a JSON session record")
  | none => .error (.fileNotFoundError (osPathJoin location manifest.files_session))

/-- `ReportIO._load_v1_0`: identical decoding steps to `_load_v1_1` (the
source bodies differ only in a log line about environment data). -/
def ReportStore.loadV1_0 (fs : FS) (location : String) (manifest : Manifest)
    (config : Config) : Except PyError Report :=
  match fs.read (osPathJoin location manifest.files_session) with
  | some (.sessionJson name extras) =>
    let session : SMASession := ⟨name, extras⟩
    match fs.read (osPathJoin location manifest.files_run) with
    | some (.runJson rj) =>
      let run : SMARun :=
        ⟨parseSecond rj.startTime, parseSecond rj.endTime,
         parseSecond rj.treatment_start, parseSecond rj.treatment_end,
         rj.runHash, some rj.user_data⟩
      match loadDataFiles fs (osPathJoin location "data")
          (manifest.format.getD "csv") manifest.data_files with
      | .error e => .error e
      | .ok data => Report.make ⟨session, run⟩ config data
    | some _ => .error (.jsonError "run.json is not a JSON run record")
    | none => .error (.fileNotFoundError (osPathJoin location manifest.files_run))
  | some _ => .error (.jsonError "session.json is not a JSON session record")
  | none => .error (.fileNotFoundError (osPathJoin location manifest.files_session))

/-- `ReportIO.load_from_location`: check the location exists, read the
manifest, and dispatch on `manifest.get("version", "1.0")`; an unknown
version warns and uses the v1.0 decoder; a missing manifest raises. -/
def ReportStore.load_from_location (fs : FS) (location : String) (config : Config) :
    Except PyError Report :=
  if ¬ fs.pathExists location then
    .error (.fileNotFoundError ("Report location does not exist: " ++ location))
  else
    match fs.read (osPathJoin location "manifest.json") with
    | some (.manifestJson manifest) =>
      let version := manifest.version.getD "1.0"
      if version = "1.0" then ReportStore.loadV1_0 fs location manifest config
      else if version = "1.1" then ReportStore.loadV1_1 fs location manifest config
      else ReportStore.loadV1_0 fs location manifest config
    | some _ => .error (.jsonError "manifest.json did not decode as a manifest")
    | none =>
      .error (.valueError ("Report location " ++ location ++ " does not contain a manifest file."))

/-! ## The orchestrator (`src/sma/sma.py`) -/

/-- Observable side effects of the orchestrator, in program order. -/
inductive Action where
  | notify (event : String)
  | notifyReport (event : String) (report : Report)
  | notifyRun (event : String) (run : SMARun)
  | sleepFor (seconds : Nat)
  | queryAttempt (name : String) (ok : Bool)
  | persistTo (location : String)
deriving DecidableEq, Repr

/-- `dict[k] = v` for observation tables (`Report.set_data`). -/
def dictSetDf (d : List (String × DataFrame)) (k : String) (v : DataFrame) :
    List (String × DataFrame) :=
  if d.any (fun p => p.1 = k) then d.map (fun p => if p.1 = k then (p.1, v) else p)
  else d ++ [(k, v)]

/-- One measurement attempt inside `observe_once`: observe over the run
interval, then label (the source rebinds `df` to the label result,
discarding the observed frame); a `ServiceException` in either step is
caught and the measurement is skipped. -/
def attemptMeasurement (m : Measurement) (run : SMARun) : Option DataFrame :=
  match m.observe run.startTime run.endTime with
  | .error _ => none
  | .ok _df =>
    match m.label run.treatment_start.toMicros run.treatment_end.toMicros
        "treatment" "Treatment" with
    | .error _ => none
    | .ok df2 => some df2

/-- `SustainabilityMeasurementAgent.observe_once`: build a report, attempt
every configured measurement (catching `ServiceException` per measurement),
persist the report, then notify `onReport` with the persisted report. -/
def observeOnce (fs : FS) (config : Config) (queries : List (String × Measurement))
    (run_data : ReportMetadata) (created_at : Int) :
    FS × List Action × Except PyError Report :=
  match Report.make run_data config [] with
  | .error e => (fs, [], .error e)
  | .ok rep0 =>
    let results := queries.map (fun q => (q.1, attemptMeasurement q.2 run_data.run))
    let obs := results.foldl (fun acc r =>
      match r.2 with
      | some df => dictSetDf acc r.1 df
      | none => acc) []
    let attempts := results.map (fun r => Action.queryAttempt r.1 r.2.isSome)
    let rep : Report := { rep0 with observations := obs }
    match ReportStore.persist fs rep none created_at with
    | (fs2, .error e) => (fs2, attempts, .error e)
    | (fs2, .ok location) =>
      (fs2, attempts ++ [.persistTo location, .notifyReport "onReport" rep], .ok rep)

/-- `SustainabilityMeasurementAgent.run`, with its effectful inputs made
explicit: `clock i` is the i-th `datetime.now()` sample, `runHash` the value
`make_run_hash(start_time)` computes (randomized in the source), `trigger`
an optional trigger function modelled by its return value, `modules` the
loaded module map and `queries` the configured measurement sources. -/
def agentRun (fs : FS) (session : Option SMASession) (config : Config)
    (modules : List (String × ModuleInst))
    (trigger : Option (Option (List (String × String))))
    (queries : List (String × Measurement)) (clock : Nat → PyDateTime)
    (runHash : String) (created_at : Int) :
    FS × List Action × Except PyError SMARun :=
  match session with
  | none =>
    (fs, [], .error (.assertionError
      "Session must be set before running, use with start_session context manager."))
  | some sess =>
    let mode := config.observation.mode
    match config.observation.window with
    | none =>
      -- the window log line dereferences `window.left`, raising whenever the
      -- window is not configured, in every mode
      (fs, [], .error (.attributeError "NoneType object has no attribute left"))
    | some window =>
      let checks : Except PyError Unit :=
        if mode = "timer" then .ok ()   -- `assert window is not None` holds here
        else if mode = "trigger" then
          match trigger with
          | none => .error (.valueError "Trigger function must be provided for trigger mode")
          | some _ => .ok ()
        else if mode = "module" then
          match trigger with
          | some _ =>
            .error (.assertionError "Trigger function should not be provided for module mode")
          | none =>
            match config.observation.module_trigger with
            | none => .error (.keyError "None")
            | some module_id =>
              match modules.lookup module_id with
              | none => .error (.keyError module_id)
              | some md =>
                if md.hasTrigger then .ok ()
                else .error (.assertionError "Module must have a callable trigger function")
        else .error (.valueError ("Unknown observation mode: " ++ mode))
      match checks with
      | .error e => (fs, [], .error e)
      | .ok _ =>
        let start_time := clock 0
        let leftActions : List Action :=
          [.notify "onLeftStart", .sleepFor window.left, .notify "onLeftEnd"]
        let treatment_start := clock 1
        let driver : List Action × Option (List (String × String)) :=
          if mode = "timer" then ([.sleepFor window.duration], some [])
          else if mode = "module" then
            match config.observation.module_trigger with
            | some module_id =>
              match modules.lookup module_id with
              | some md => ([], md.triggerResult)
              | none => ([], some [])   -- unreachable: the checks already looked it up
            | none => ([], some [])     -- unreachable: the checks already raised
          else ([], trigger.getD (some []))
        let treatment_end := clock 2
        let rightActions : List Action :=
          [.notify "onRightStart", .sleepFor window.right, .notify "onRightEnd"]
        let end_time := clock 3
        let run_data : SMARun :=
          ⟨start_time, end_time, treatment_start, treatment_end, runHash, driver.2⟩
        let pre : List Action :=
          leftActions ++ [.notify "onTreatmentStart"] ++ driver.1 ++
          [.notify "onTreatmentEnd"] ++ rightActions
        match observeOnce fs config queries ⟨sess, run_data⟩ created_at with
        | (fs2, oTrace, .error e) => (fs2, pre ++ oTrace, .error e)
        | (fs2, oTrace, .ok _rep) =>
          (fs2, pre ++ oTrace ++ [.notifyRun "onRunEnd" run_data], .ok run_data)

/-- `teardown()`: notifies `onSessionEnd` and then `onTeardown`. -/
def teardownTrace : List Action :=
  [Action.notify "onSessionEnd", Action.notify "onTeardown"]

/-- The `start_session` context manager: `setup` (which notifies `onSetup`),
then `onSessionStart`, then the body; the `finally` block notifies
`onSessionEnd` and calls `teardown()` whether or not the body raised.  The
body is given by its trace and outcome. -/
def startSession (bodyTrace : List Action) (bodyResult : Except PyError Unit) :
    List Action × Except PyError Unit :=
  ([Action.notify "onSetup", Action.notify "onSessionStart"] ++ bodyTrace ++
   ([Action.notify "onSessionEnd"] ++ teardownTrace),
   bodyResult)

/-- The loop of `load_modules`, with the accumulated `modules` mapping:
`env name` models `importlib.import_module("modules." + name + ".main")`
followed by `getattr` of the naming-convention class and its construction;
`none` means the import or attribute lookup raises.  An entry whose config
lacks a truthy `module` key is logged and skipped with `continue`. -/
def loadModulesAux (env : String → Option ModuleInst) :
    List (String × ModuleCfg) → List (String × ModuleInst) →
    Except PyError (List (String × ModuleInst))
  | [], acc => .ok acc
  | (module_id, mcfg) :: rest, acc =>
    match mcfg.moduleName with
    | none => loadModulesAux env rest acc
    | some name =>
      if name = "" then loadModulesAux env rest acc
      else
        match env name with
        | none => .error (.moduleNotFoundError ("modules." ++ name ++ ".main"))
        | some inst => loadModulesAux env rest (acc ++ [(module_id, inst)])

/-- `SustainabilityMeasurementAgent.load_modules`. -/
def loadModules (entries : List (String × ModuleCfg))
    (env : String → Option ModuleInst) : Except PyError (List (String × ModuleInst)) :=
  loadModulesAux env entries []

/-! ## Concrete fixtures for closed evaluations -/

/-- A minimal timer-mode configuration. -/
def timerConfig : Config :=
  { observation := { mode := "timer", window := some ⟨1, 1, 2⟩ },
    report := {}, measurements := [] }

/-- A deterministic, strictly increasing clock. -/
def sampleClock : Nat → PyDateTime := fun i => ⟨(i : Int), 0⟩

/-- The manifest of the C6 witness directory, with an unknown version. -/
def c6Manifest : Manifest :=
  ⟨some "2.7", 0, some "csv", [], "session.json", "run.json", "config.yaml"⟩

/-- An entry of `config.modules` whose `module` key is present and truthy. -/
def hasModuleKey (p : String × ModuleCfg) : Bool :=
  match p.2.moduleName with
  | some n => n != ""
  | none => false

/-- A measurement whose fetch raises a `ServiceException`. -/
def mBad : Measurement := ⟨fun _ _ => .error (), fun _ _ _ _ => .error ()⟩

/-- A measurement that observes and labels successfully. -/
def mGood : Measurement :=
  ⟨fun _ _ => .ok ⟨3, ["value"]⟩, fun _ _ _ _ => .ok ⟨3, ["value", "treatment"]⟩⟩

/-- Metadata of the C3 witness run. -/
def c3Metadata : ReportMetadata :=
  ⟨⟨"s", []⟩, ⟨⟨0, 0⟩, ⟨3, 0⟩, ⟨1, 0⟩, ⟨2, 0⟩, "deadbeef", some []⟩⟩

/-- The C3 witness query set: one failing, one succeeding measurement. -/
def c3Queries : List (String × Measurement) := [("bad", mBad), ("good", mGood)]

/-- The report `observe_once` produces on the C3 witness inputs. -/
def c3Report : Report :=
  { metadata := c3Metadata,
    config := timerConfig,
    observations := [("good", ⟨3, ["value", "treatment"]⟩)],
    location := "reports/0_deadbeef/" }

/-- The filesystem `observe_once` produces on the C3 witness inputs. -/
def c3Fs : FS :=
  { files := [
      ("reports/0_deadbeef/manifest.json", .manifestJson
        ⟨some "1.1", 0, some "csv",
         [("good", ⟨"good.csv", 3, ["value", "treatment"]⟩)],
         "session.json", "run.json", "config.yaml"⟩),
      ("reports/0_deadbeef/run.json", .runJson
        ⟨0, 3, 1, 2, "deadbeef", 3000000, 1000000, [], none⟩),
      ("reports/0_deadbeef/session.json", .sessionJson "s" []),
      ("reports/0_deadbeef/data/good.csv", .csv ⟨3, ["value", "treatment"]⟩)],
    dirs := ["reports/0_deadbeef/data", "reports/0_deadbeef/"] }

/-- The trace `observe_once` produces on the C3 witness inputs. -/
def c3Trace : List Action :=
  [.queryAttempt "bad" false, .queryAttempt "good" true,
   .persistTo "reports/0_deadbeef/", .notifyReport "onReport" c3Report]

/-- The C4 witness configuration: an escaping location template. -/
def c4Config : Config :=
  { observation := { mode := "timer", window := some ⟨1, 1, 2⟩ },
    report := { location := "../escape/${runHash}" }, measurements := [] }

/-! ## Support definitions for the round-trip claim -/

/-- The `run.json` record `persist` writes for a run. -/
def persistRunJson (run : SMARun) (extras : Option (List (String × String))) : RunJson :=
  ⟨fmtSecond run.startTime, fmtSecond run.endTime,
   fmtSecond run.treatment_start, fmtSecond run.treatment_end,
   run.runHash, run.durationMicros, run.treatmentDurationMicros,
   run.user_data.getD [],
   match extras with
   | some e => if e.isEmpty then none else some e
   | none => none⟩

/-- The manifest `persist` writes for a report. -/
def persistManifest (rep : Report) (created_at : Int) : Manifest :=
  ⟨some "1.1", created_at, some rep.config.report.format,
   rep.observations.map (fun p =>
     (p.1, ⟨p.1 ++ "." ++ rep.config.report.format, p.2.nrows, p.2.columns⟩)),
   "session.json", "run.json", "config.yaml"⟩

/-- The filesystem a successful `persist` produces, in unfolded form (used
by the round-trip proof). -/
def persistFS (fs0 : FS) (rep : Report) (extras : Option (List (String × String)))
    (created_at : Int) : FS :=
  let fs1 := (getOrMakeReportLocation fs0 rep).1
  let dd := osPathJoin rep.location "data"
  let fs2 := if fs1.pathExists dd then fs1 else fs1.mkdir dd
  let fs3 := rep.observations.foldl
    (fun f p =>
      f.write (osPathJoin dd (p.1 ++ "." ++ rep.config.report.format)) (.csv p.2)) fs2
  let fs4 := fs3.write (osPathJoin rep.location "session.json")
    (.sessionJson rep.metadata.session.name rep.metadata.session.extras)
  let fs5 := fs4.write (osPathJoin rep.location "run.json")
    (.runJson (persistRunJson rep.metadata.run extras))
  let fs6 :=
    match rep.config.config_file with
    | some p =>
      if fs5.pathExists p then fs5.write (osPathJoin rep.location "config.yaml") .configCopy
      else fs5
    | none => fs5
  fs6.write (osPathJoin rep.location "manifest.json")
    (.manifestJson (persistManifest rep created_at))

/-- The metadata a load reconstructs from a persisted report: timestamps
truncated to whole seconds, `user_data` normalized through the persisted
`or {}`. -/
def truncMeta (m : ReportMetadata) : ReportMetadata :=
  ⟨m.session,
   ⟨⟨m.run.startTime.sec, 0⟩, ⟨m.run.endTime.sec, 0⟩,
    ⟨m.run.treatment_start.sec, 0⟩, ⟨m.run.treatment_end.sec, 0⟩,
    m.run.runHash, some (m.run.user_data.getD [])⟩⟩

/-- The observation tables of the C5 witness. -/
def c5Data : List (String × DataFrame) := [("good", ⟨3, ["value", "treatment"]⟩)]

/-- The report the C5 witness persists. -/
def c5Rep : Report := ⟨c3Metadata, timerConfig, c5Data, "reports/0_deadbeef/"⟩

/-! ## Theorems about the claims -/

/-- C1 (refuted; the code contradicts its own `SMAObserver` declaration):
on a run with a configured window, the orchestrator dispatches the events
named `onLeftStart`, `onLeftEnd`, `onRightStart` and `onRightEnd` — none of
which is in the capability set declared by the `SMAObserver` protocol — and
never dispatches the declared `onLeftWindowStart`, `onLeftWindowEnd`,
`onRightWindowStart`, `onRightWindowEnd` events the claim names. -/
theorem c1_window_event_names_diverge :
    (Action.notify "onLeftStart") ∈ (agentRun ⟨[], []⟩ (some ⟨"s", []⟩) timerConfig
      [] none [] sampleClock "deadbeef" 0).2.1 ∧
    (Action.notify "onLeftEnd") ∈ (agentRun ⟨[], []⟩ (some ⟨"s", []⟩) timerConfig
      [] none [] sampleClock "deadbeef" 0).2.1 ∧
    (Action.notify "onRightStart") ∈ (agentRun ⟨[], []⟩ (some ⟨"s", []⟩) timerConfig
      [] none [] sampleClock "deadbeef" 0).2.1 ∧
    (Action.notify "onRightEnd") ∈ (agentRun ⟨[], []⟩ (some ⟨"s", []⟩) timerConfig
      [] none [] sampleClock "deadbeef" 0).2.1 ∧
    (Action.notify "onLeftWindowStart") ∉ (agentRun ⟨[], []⟩ (some ⟨"s", []⟩) timerConfig
      [] none [] sampleClock "deadbeef" 0).2.1 ∧
    (Action.notify "onLeftWindowEnd") ∉ (agentRun ⟨[], []⟩ (some ⟨"s", []⟩) timerConfig
      [] none [] sampleClock "deadbeef" 0).2.1 ∧
    (Action.notify "onRightWindowStart") ∉ (agentRun ⟨[], []⟩ (some ⟨"s", []⟩) timerConfig
      [] none [] sampleClock "deadbeef" 0).2.1 ∧
    (Action.notify "onRightWindowEnd") ∉ (agentRun ⟨[], []⟩ (some ⟨"s", []⟩) timerConfig
      [] none [] sampleClock "deadbeef" 0).2.1 ∧
    "onLeftStart" ∉ SMAObserver.events ∧ "onLeftWindowStart" ∈ SMAObserver.events ∧
    "onLeftEnd" ∉ SMAObserver.events ∧ "onLeftWindowEnd" ∈ SMAObserver.events ∧
    "onRightStart" ∉ SMAObserver.events ∧ "onRightWindowStart" ∈ SMAObserver.events ∧
    "onRightEnd" ∉ SMAObserver.events ∧ "onRightWindowEnd" ∈ SMAObserver.events := by
  decide

/-- C10: whatever the body of a `start_session` block does and whether or
not it raises, the emitted trace is `onSetup`, `onSessionStart`, the body,
then `onSessionEnd` from the `finally` block, `onSessionEnd` again from
`teardown()`, and finally `onTeardown`; when the body itself emits none of
those three events, observers receive `onSetup` exactly once, `onSessionEnd`
exactly twice and `onTeardown` exactly once, and the body's outcome is
propagated. -/
theorem c10_start_session_lifecycle (bodyTrace : List Action)
    (bodyResult : Except PyError Unit)
    (hSetup : Action.notify "onSetup" ∉ bodyTrace)
    (hEnd : Action.notify "onSessionEnd" ∉ bodyTrace)
    (hTear : Action.notify "onTeardown" ∉ bodyTrace) :
    (startSession bodyTrace bodyResult).1 =
      [Action.notify "onSetup", Action.notify "onSessionStart"] ++ bodyTrace ++
      [Action.notify "onSessionEnd", Action.notify "onSessionEnd",
       Action.notify "onTeardown"] ∧
    (startSession bodyTrace bodyResult).1.count (Action.notify "onSetup") = 1 ∧
    (startSession bodyTrace bodyResult).1.count (Action.notify "onSessionEnd") = 2 ∧
    (startSession bodyTrace bodyResult).1.count (Action.notify "onTeardown") = 1 ∧
    (startSession bodyTrace bodyResult).2 = bodyResult := by
  have h1 : bodyTrace.count (Action.notify "onSetup") = 0 :=
    List.count_eq_zero.mpr hSetup
  have h2 : bodyTrace.count (Action.notify "onSessionEnd") = 0 :=
    List.count_eq_zero.mpr hEnd
  have h3 : bodyTrace.count (Action.notify "onTeardown") = 0 :=
    List.count_eq_zero.mpr hTear
  refine ⟨rfl, ?_, ?_, ?_, rfl⟩ <;>
    simp [startSession, teardownTrace, List.count_append, List.count_cons,
      h1, h2, h3]

/-- C10 witness: the lifecycle property at a concrete body. -/
theorem c10_start_session_lifecycle_witness :
    (startSession [Action.sleepFor 1] (Except.ok ())).1 =
      [Action.notify "onSetup", Action.notify "onSessionStart"] ++ [Action.sleepFor 1] ++
      [Action.notify "onSessionEnd", Action.notify "onSessionEnd",
       Action.notify "onTeardown"] ∧
    (startSession [Action.sleepFor 1] (Except.ok ())).1.count (Action.notify "onSetup") = 1 ∧
    (startSession [Action.sleepFor 1] (Except.ok ())).1.count (Action.notify "onSessionEnd") = 2 ∧
    (startSession [Action.sleepFor 1] (Except.ok ())).1.count (Action.notify "onTeardown") = 1 ∧
    (startSession [Action.sleepFor 1] (Except.ok ())).2 = Except.ok () :=
  c10_start_session_lifecycle [Action.sleepFor 1] (Except.ok ())
    (by decide) (by decide) (by decide)

/-- C7: `run()` in timer mode with no configured window fails before any
sleep or observer notification (the failure is raised at the window logging
line, which dereferences the unset window, before the mode checks run); in
trigger mode with no trigger function it likewise fails before any window
sleep or notification; in both cases no `SMARun` record is produced. -/
theorem c7_mode_validation (fs : FS) (sess : SMASession) (config : Config)
    (modules : List (String × ModuleInst))
    (trigger : Option (Option (List (String × String))))
    (queries : List (String × Measurement)) (clock : Nat → PyDateTime)
    (runHash : String) (created_at : Int) :
    (config.observation.mode = "timer" → config.observation.window = none →
      ∃ e, agentRun fs (some sess) config modules trigger queries clock runHash created_at
        = (fs, [], .error e)) ∧
    (config.observation.mode = "trigger" → trigger = none →
      ∃ e, agentRun fs (some sess) config modules trigger queries clock runHash created_at
        = (fs, [], .error e)) := by
  constructor
  · intro _hmode hwin
    exact ⟨.attributeError "NoneType object has no attribute left", by simp [agentRun, hwin]⟩
  · intro hmode htrig
    cases hwin : config.observation.window with
    | none =>
      exact ⟨.attributeError "NoneType object has no attribute left", by simp [agentRun, hwin]⟩
    | some w =>
      refine ⟨.valueError "Trigger function must be provided for trigger mode", ?_⟩
      have hne : config.observation.mode ≠ "timer" := by simp [hmode]
      simp [agentRun, hwin, hmode, htrig]

/-- In a successful `run()`, the four timestamps of the produced record are
exactly the four `datetime.now()` samples, in program order. -/
theorem agentRun_ok_samples (fs : FS) (session : Option SMASession) (config : Config)
    (modules : List (String × ModuleInst))
    (trigger : Option (Option (List (String × String))))
    (queries : List (String × Measurement)) (clock : Nat → PyDateTime)
    (runHash : String) (created_at : Int) (r : SMARun)
    (h : (agentRun fs session config modules trigger queries clock runHash created_at).2.2
      = .ok r) :
    r.startTime = clock 0 ∧ r.treatment_start = clock 1 ∧
    r.treatment_end = clock 2 ∧ r.endTime = clock 3 := by
  unfold agentRun at h
  rcases session with _ | sess
  · simp at h
  · rcases hw : config.observation.window with _ | w
    · rw [hw] at h; simp at h
    · rw [hw] at h
      dsimp only at h
      split at h
      · simp at h
      · split at h
        · simp at h
        · simp only [Except.ok.injEq] at h
          subst h
          exact ⟨rfl, rfl, rfl, rfl⟩

/-- C2: under a monotone clock, every `run()` invocation that completes
normally produces a record with
`startTime ≤ treatment_start ≤ treatment_end ≤ endTime`, because the four
timestamps are the `datetime.now()` samples taken in that program order. -/
theorem c2_run_timestamps_ordered (fs : FS) (session : Option SMASession)
    (config : Config) (modules : List (String × ModuleInst))
    (trigger : Option (Option (List (String × String))))
    (queries : List (String × Measurement)) (clock : Nat → PyDateTime)
    (runHash : String) (created_at : Int) (r : SMARun)
    (hmono : ∀ i j : Nat, i ≤ j → (clock i).toMicros ≤ (clock j).toMicros)
    (h : (agentRun fs session config modules trigger queries clock runHash created_at).2.2
      = .ok r) :
    r.startTime.le r.treatment_start ∧ r.treatment_start.le r.treatment_end ∧
    r.treatment_end.le r.endTime := by
  obtain ⟨h0, h1, h2, h3⟩ :=
    agentRun_ok_samples fs session config modules trigger queries clock runHash created_at r h
  unfold PyDateTime.le
  rw [h0, h1, h2, h3]
  exact ⟨hmono 0 1 (by omega), hmono 1 2 (by omega), hmono 2 3 (by omega)⟩

/-- C2 witness: the timestamp chain on a concrete successful run. -/
theorem c2_run_timestamps_ordered_witness :
    (SMARun.mk ⟨0, 0⟩ ⟨3, 0⟩ ⟨1, 0⟩ ⟨2, 0⟩ "deadbeef" (some [])).startTime.le
      (SMARun.mk ⟨0, 0⟩ ⟨3, 0⟩ ⟨1, 0⟩ ⟨2, 0⟩ "deadbeef" (some [])).treatment_start ∧
    (SMARun.mk ⟨0, 0⟩ ⟨3, 0⟩ ⟨1, 0⟩ ⟨2, 0⟩ "deadbeef" (some [])).treatment_start.le
      (SMARun.mk ⟨0, 0⟩ ⟨3, 0⟩ ⟨1, 0⟩ ⟨2, 0⟩ "deadbeef" (some [])).treatment_end ∧
    (SMARun.mk ⟨0, 0⟩ ⟨3, 0⟩ ⟨1, 0⟩ ⟨2, 0⟩ "deadbeef" (some [])).treatment_end.le
      (SMARun.mk ⟨0, 0⟩ ⟨3, 0⟩ ⟨1, 0⟩ ⟨2, 0⟩ "deadbeef" (some [])).endTime :=
  c2_run_timestamps_ordered ⟨[], []⟩ (some ⟨"s", []⟩) timerConfig [] none [] sampleClock
    "deadbeef" 0 (SMARun.mk ⟨0, 0⟩ ⟨3, 0⟩ ⟨1, 0⟩ ⟨2, 0⟩ "deadbeef" (some []))
    (fun i j hij => by
      simp only [sampleClock, PyDateTime.toMicros]
      omega)
    (by rfl)

/-- C9: the version-1.0 and version-1.1 decoders are extensionally equal: on
every filesystem, location, manifest and configuration they return identical
results, hence identical sessions, run fields, observation tables and
`measurments()` accessors. -/
theorem c9_decoders_agree (fs : FS) (location : String) (manifest : Manifest)
    (config : Config) :
    ReportStore.loadV1_0 fs location manifest config =
      ReportStore.loadV1_1 fs location manifest config := rfl

/-- C9 witness: the decoders agree on a concrete report directory. -/
theorem c9_decoders_agree_witness :
    ReportStore.loadV1_0 ⟨[], []⟩ "loc"
        ⟨some "1.0", 0, some "csv", [], "session.json", "run.json", "config.yaml"⟩
        timerConfig =
      ReportStore.loadV1_1 ⟨[], []⟩ "loc"
        ⟨some "1.0", 0, some "csv", [], "session.json", "run.json", "config.yaml"⟩
        timerConfig :=
  c9_decoders_agree ⟨[], []⟩ "loc"
    ⟨some "1.0", 0, some "csv", [], "session.json", "run.json", "config.yaml"⟩ timerConfig

/-- C6: `load_from_location` dispatches purely on the manifest version
(read with default `"1.0"`): `"1.0"` routes to the v1.0 decoder, `"1.1"` to
the v1.1 decoder, and any other version value falls back to the v1.0 decoder
(with a warning) instead of raising; a location that exists but contains no
manifest file raises a `ValueError`. -/
theorem c6_version_dispatch (fs : FS) (location : String) (config : Config)
    (hex : fs.pathExists location = true) :
    (∀ m, fs.read (osPathJoin location "manifest.json") = some (.manifestJson m) →
      ReportStore.load_from_location fs location config =
        (if m.version.getD "1.0" = "1.0" then ReportStore.loadV1_0 fs location m config
         else if m.version.getD "1.0" = "1.1" then ReportStore.loadV1_1 fs location m config
         else ReportStore.loadV1_0 fs location m config)) ∧
    (fs.read (osPathJoin location "manifest.json") = none →
      ReportStore.load_from_location fs location config =
        .error (.valueError
          ("Report location " ++ location ++ " does not contain a manifest file."))) := by
  constructor
  · intro m hm
    simp [ReportStore.load_from_location, hex, hm]
  · intro hm
    simp [ReportStore.load_from_location, hex, hm]

/-- C6 witness: a directory with an unknown manifest version dispatches to
the v1.0 decoder, and a directory without a manifest raises. -/
theorem c6_version_dispatch_witness :
    ReportStore.load_from_location ⟨[("loc/manifest.json", .manifestJson c6Manifest)], ["loc"]⟩
        "loc" timerConfig =
      ReportStore.loadV1_0 ⟨[("loc/manifest.json", .manifestJson c6Manifest)], ["loc"]⟩
        "loc" c6Manifest timerConfig ∧
    ReportStore.load_from_location ⟨[], ["loc"]⟩ "loc" timerConfig =
      .error (.valueError "Report location loc does not contain a manifest file.") := by
  constructor
  · have h := (c6_version_dispatch ⟨[("loc/manifest.json", .manifestJson c6Manifest)], ["loc"]⟩
      "loc" timerConfig (by decide)).1 c6Manifest (by decide)
    simpa using h
  · have h := (c6_version_dispatch ⟨[], ["loc"]⟩ "loc" timerConfig (by decide)).2 (by decide)
    simpa using h

/-- If some entry names a module the import environment cannot resolve, the
`load_modules` loop raises. -/
theorem loadModulesAux_error (env : String → Option ModuleInst)
    (entries : List (String × ModuleCfg)) (acc : List (String × ModuleInst))
    (h : ∃ p ∈ entries, ∃ name, p.2.moduleName = some name ∧ name ≠ "" ∧ env name = none) :
    ∃ e, loadModulesAux env entries acc = .error e := by
  induction entries generalizing acc with
  | nil => simp at h
  | cons hd tl ih =>
    obtain ⟨p, hp, name, hname, hne, henv⟩ := h
    rcases List.mem_cons.mp hp with hp | hp
    · subst hp
      refine ⟨.moduleNotFoundError ("modules." ++ name ++ ".main"), ?_⟩
      simp [loadModulesAux, hname, hne, henv]
    · have hex : ∃ p ∈ tl, ∃ name, p.2.moduleName = some name ∧ name ≠ "" ∧ env name = none :=
        ⟨p, hp, name, hname, hne, henv⟩
      cases hmn : hd.2.moduleName with
      | none =>
        obtain ⟨e, he⟩ := ih acc hex
        exact ⟨e, by simpa [loadModulesAux, hmn] using he⟩
      | some n =>
        by_cases hn : n = ""
        · obtain ⟨e, he⟩ := ih acc hex
          exact ⟨e, by simpa [loadModulesAux, hmn, hn] using he⟩
        · cases henvn : env n with
          | none =>
            exact ⟨.moduleNotFoundError ("modules." ++ n ++ ".main"),
              by simp [loadModulesAux, hmn, hn, henvn]⟩
          | some inst =>
            obtain ⟨e, he⟩ := ih (acc ++ [(hd.1, inst)]) hex
            exact ⟨e, by simpa [loadModulesAux, hmn, hn, henvn] using he⟩

/-- When the `load_modules` loop completes, the loaded module identifiers are
exactly the identifiers of the entries that carried a truthy `module` key. -/
theorem loadModulesAux_ok_keys (env : String → Option ModuleInst)
    (entries : List (String × ModuleCfg)) (acc : List (String × ModuleInst))
    (mods : List (String × ModuleInst))
    (h : loadModulesAux env entries acc = .ok mods) :
    mods.map Prod.fst =
      acc.map Prod.fst ++ (entries.filter hasModuleKey).map Prod.fst := by
  induction entries generalizing acc with
  | nil =>
    simp only [loadModulesAux, Except.ok.injEq] at h
    subst h
    simp
  | cons hd tl ih =>
    cases hmn : hd.2.moduleName with
    | none =>
      have h2 : loadModulesAux env tl acc = .ok mods := by
        simpa [loadModulesAux, hmn] using h
      have := ih acc h2
      simpa [hasModuleKey, hmn] using this
    | some n =>
      by_cases hn : n = ""
      · have h2 : loadModulesAux env tl acc = .ok mods := by
          simpa [loadModulesAux, hmn, hn] using h
        have := ih acc h2
        simpa [hasModuleKey, hmn, hn] using this
      · cases henvn : env n with
        | none => simp [loadModulesAux, hmn, hn, henvn] at h
        | some inst =>
          have h2 : loadModulesAux env tl (acc ++ [(hd.1, inst)]) = .ok mods := by
            simpa [loadModulesAux, hmn, hn, henvn] using h
          have := ih (acc ++ [(hd.1, inst)]) h2
          simpa [hasModuleKey, hmn, hn] using this

/-- C8 counterexample: an entry whose configuration lacks the `module` key is
not fatal — the loader completes successfully, with that module silently
absent from the loaded set. -/
theorem c8_missing_key_skipped_counterexample :
    loadModules [("m1", ⟨none⟩)] (fun _ => none) = .ok [] := rfl

/-- C8 (amended): an unknown module name is fatal at load time — if any
entry names a module the import environment cannot resolve, `load_modules`
raises before the orchestrator runs — but an entry missing a truthy
`module` key is logged and skipped, so the loader completes with exactly the
truthy-keyed entries loaded and the misconfigured ones absent. -/
theorem c8_module_resolution (entries : List (String × ModuleCfg))
    (env : String → Option ModuleInst) :
    ((∃ p ∈ entries, ∃ name, p.2.moduleName = some name ∧ name ≠ "" ∧ env name = none) →
      ∃ e, loadModules entries env = .error e) ∧
    (∀ mods, loadModules entries env = .ok mods →
      mods.map Prod.fst = (entries.filter hasModuleKey).map Prod.fst) := by
  constructor
  · intro h
    exact loadModulesAux_error env entries [] h
  · intro mods h
    simpa using loadModulesAux_ok_keys env entries [] mods h

/-- C8 witness: an unresolvable module name raises; a missing `module` key
leaves the loader succeeding with that entry absent. -/
theorem c8_module_resolution_witness :
    (∃ e, loadModules [("m1", ⟨some "nope"⟩)] (fun _ => none) = .error e) ∧
    ([] : List (String × ModuleInst)).map Prod.fst =
      (([("m1", (⟨none⟩ : ModuleCfg))].filter hasModuleKey).map Prod.fst) :=
  ⟨(c8_module_resolution [("m1", ⟨some "nope"⟩)] (fun _ => none)).1
      ⟨("m1", ⟨some "nope"⟩), by decide, "nope", rfl, by decide, rfl⟩,
   (c8_module_resolution [("m1", ⟨none⟩)] (fun _ => none)).2 [] rfl⟩

/-- The fold of `set_data` over the measurement results: when every result
name is new to the accumulator and the names are distinct, it appends
exactly the successful results, in order. -/
theorem foldl_setDf_append (results : List (String × Option DataFrame))
    (acc : List (String × DataFrame))
    (hdisj : ∀ r ∈ results, ∀ p ∈ acc, r.1 ≠ p.1)
    (hnodup : (results.map Prod.fst).Nodup) :
    results.foldl (fun acc2 r =>
      match r.2 with
      | some df => dictSetDf acc2 r.1 df
      | none => acc2) acc
    = acc ++ results.filterMap (fun r => r.2.map (fun df => (r.1, df))) := by
  induction results generalizing acc with
  | nil => simp
  | cons hd tl ih =>
    obtain ⟨name, opt⟩ := hd
    have hn := List.nodup_cons.mp
      (show (name :: tl.map Prod.fst).Nodup by simpa using hnodup)
    have hnodup2 : (tl.map Prod.fst).Nodup := hn.2
    have hnotin : name ∉ tl.map Prod.fst := hn.1
    cases opt with
    | none =>
      have hdisj2 : ∀ r ∈ tl, ∀ p ∈ acc, r.1 ≠ p.1 :=
        fun r hr => hdisj r (List.mem_cons_of_mem _ hr)
      simpa using ih acc hdisj2 hnodup2
    | some df =>
      have hnew : ¬ acc.any (fun p => p.1 = name) = true := by
        intro hany
        obtain ⟨p, hp, hpe⟩ := List.any_eq_true.mp hany
        exact hdisj (name, some df) (List.mem_cons_self _ _) p hp
          (by simpa using (of_decide_eq_true hpe).symm)
      have hset : dictSetDf acc name df = acc ++ [(name, df)] := by
        unfold dictSetDf
        rw [if_neg hnew]
      have hdisj2 : ∀ r ∈ tl, ∀ p ∈ acc ++ [(name, df)], r.1 ≠ p.1 := by
        intro r hr p hp
        rcases List.mem_append.mp hp with hp | hp
        · exact hdisj r (List.mem_cons_of_mem _ hr) p hp
        · have : p = (name, df) := by simpa using hp
          subst this
          intro hcon
          have hcon2 : r.1 = name := hcon
          exact hnotin (hcon2 ▸ List.mem_map_of_mem Prod.fst hr)
      have := ih (acc ++ [(name, df)]) hdisj2 hnodup2
      simpa [hset, List.append_assoc] using this

/-- The location component of `_get_or_make_report_location` is always the
report's validated location. -/
theorem getOrMake_loc (fs : FS) (r : Report) :
    (getOrMakeReportLocation fs r).2 = r.location := by
  unfold getOrMakeReportLocation
  split <;> rfl

/-- A successful `persist` returns the report's validated location. -/
theorem persist_ok_location (fs : FS) (rep : Report)
    (extras : Option (List (String × String))) (t : Int) (fs2 : FS) (loc : String)
    (h : ReportStore.persist fs rep extras t = (fs2, .ok loc)) : loc = rep.location := by
  simp only [ReportStore.persist, getOrMake_loc] at h
  repeat' split at h
  all_goals
    first
    | (simp only [Prod.mk.injEq, Except.ok.injEq] at h
       exact h.2.symm)
    | simp at h

/-- C3: in `observe_once`, a `ServiceException` raised while fetching or
labeling a measurement is caught and that measurement is simply absent from
the resulting report, while every other configured measurement is still
attempted (the observation tables are exactly the successful attempts, in
configuration order); once every measurement has been attempted the report
is persisted and then `onReport` is notified exactly once, with the
persisted report as payload, persistence strictly before the
notification. -/
theorem c3_observe_once (fs : FS) (config : Config)
    (queries : List (String × Measurement)) (md : ReportMetadata) (created_at : Int)
    (fs2 : FS) (tr : List Action) (rep : Report)
    (hnodup : (queries.map Prod.fst).Nodup)
    (h : observeOnce fs config queries md created_at = (fs2, tr, .ok rep)) :
    rep.observations = queries.filterMap
      (fun q => (attemptMeasurement q.2 md.run).map (fun df => (q.1, df))) ∧
    tr = queries.map
        (fun q => Action.queryAttempt q.1 (attemptMeasurement q.2 md.run).isSome)
      ++ [Action.persistTo rep.location, Action.notifyReport "onReport" rep] ∧
    tr.count (Action.notifyReport "onReport" rep) = 1 := by
  unfold observeOnce at h
  split at h
  · simp at h
  · rename_i rep0 hmk
    dsimp only at h
    split at h
    · simp at h
    · rename_i fs3 location hper
      simp only [Prod.mk.injEq, Except.ok.injEq] at h
      obtain ⟨hfs, htr, hrep⟩ := h
      have hobs : rep.observations = queries.filterMap
          (fun q => (attemptMeasurement q.2 md.run).map (fun df => (q.1, df))) := by
        rw [← hrep]
        have hfold := foldl_setDf_append
          (queries.map (fun q => (q.1, attemptMeasurement q.2 md.run))) []
          (by intro r _ p hp; simp at hp)
          (by simpa [Function.comp] using hnodup)
        simp only [List.filterMap_map] at hfold
        simpa [Function.comp] using hfold
      have hloc : location = rep.location := by
        have := persist_ok_location fs
          { rep0 with observations := _ } none created_at fs3 location hper
        rw [this, ← hrep]
      refine ⟨hobs, ?_, ?_⟩
      · rw [← htr, hloc, ← hrep]
        simp [Function.comp]
      · rw [← htr, hrep]
        rw [List.count_append]
        have hzero : ((queries.map (fun q => (q.1, attemptMeasurement q.2 md.run))).map
            (fun r => Action.queryAttempt r.1 r.2.isSome)).count
            (Action.notifyReport "onReport" rep) = 0 := by
          rw [List.count_eq_zero]
          intro hmem
          obtain ⟨q, _, hq⟩ := List.mem_map.mp hmem
          exact absurd hq (by simp)
        rw [hzero]
        simp

/-- C3 witness: on a run with one failing and one succeeding measurement,
the failing one is absent, the succeeding one present, and the trace is the
two attempts, the persist, then exactly one `onReport` with the persisted
report. -/
theorem c3_observe_once_witness :
    c3Report.observations = c3Queries.filterMap
      (fun q => (attemptMeasurement q.2 c3Metadata.run).map (fun df => (q.1, df))) ∧
    c3Trace = c3Queries.map
        (fun q => Action.queryAttempt q.1 (attemptMeasurement q.2 c3Metadata.run).isSome)
      ++ [Action.persistTo c3Report.location, Action.notifyReport "onReport" c3Report] ∧
    c3Trace.count (Action.notifyReport "onReport" c3Report) = 1 :=
  c3_observe_once ⟨[], []⟩ timerConfig c3Queries c3Metadata 0 c3Fs c3Trace c3Report
    (by decide) rfl

/-- Substitution passes a literal `../` template prefix through unchanged. -/
theorem safeSubAux_dotdot (ctx : List (String × String)) (fuel : Nat) (rest : List Char) :
    safeSubAux ctx (fuel + 3) ('.' :: '.' :: '/' :: rest) =
      '.' :: '.' :: '/' :: safeSubAux ctx fuel rest := rfl

/-- Splitting on the separator turns a leading `../` into a leading `..`
segment, whatever follows. -/
theorem splitOnChar_dotdot (cs : List Char) :
    splitOnChar '/' ('.' :: '.' :: '/' :: cs) = ['.', '.'] :: splitOnChar '/' cs := rfl

/-- Any location starting with `../` fails validation with the path-safety
`ValueError`, before any I/O. -/
theorem validateLocation_dotdot (cs : List Char) :
    validateLocation (String.mk ('.' :: '.' :: '/' :: cs)) =
      .error (.valueError ("Report location contains unsafe .. component: " ++
        String.mk ('.' :: '.' :: '/' :: cs))) := by
  unfold validateLocation
  rw [if_neg, if_pos]
  · show (splitOnChar '/' ('.' :: '.' :: '/' :: cs)).contains ['.', '.'] = true
    rw [splitOnChar_dotdot]
    simp [List.contains_cons]
  · show ¬ pyIsAbs (String.mk ('.' :: '.' :: '/' :: cs)) = true
    simp [pyIsAbs]

/-- C4: whenever the computed location (the location template safe-substituted
with the flattened metadata) fails path-safety validation — in particular it
is absolute or contains a `..` segment — `Report` construction inside
`observe_once` raises that `ValueError` before anything else happens: the
filesystem is returned untouched (no file or directory created) and the
action trace is empty; and a configured location template of
`"../escape/${runHash}"` always fails this way. -/
theorem c4_unsafe_location_fails_fast (fs : FS) (config : Config)
    (queries : List (String × Measurement)) (md : ReportMetadata) (created_at : Int) :
    (∀ e, validateLocation
        (safeSubstitute (buildLocationContext (some md)) config.report.location)
        = .error e →
      observeOnce fs config queries md created_at = (fs, [], .error e)) ∧
    (config.report.location = "../escape/${runHash}" →
      ∃ e, observeOnce fs config queries md created_at = (fs, [], .error e)) := by
  have hpart1 : ∀ e, validateLocation
      (safeSubstitute (buildLocationContext (some md)) config.report.location)
      = .error e →
      observeOnce fs config queries md created_at = (fs, [], .error e) := by
    intro e hval
    simp [observeOnce, Report.make, calculateLocation, hval, Except.map]
  refine ⟨hpart1, ?_⟩
  intro hloc
  have hcomp : safeSubstitute (buildLocationContext (some md)) "../escape/${runHash}" =
      String.mk ('.' :: '.' :: '/' ::
        safeSubAux (buildLocationContext (some md)) 17 ("escape/${runHash}".data)) := by
    show String.mk (safeSubAux (buildLocationContext (some md)) (17 + 3)
      ('.' :: '.' :: '/' :: "escape/${runHash}".data)) = _
    rw [safeSubAux_dotdot]
  refine ⟨.valueError ("Report location contains unsafe .. component: " ++
    String.mk ('.' :: '.' :: '/' ::
      safeSubAux (buildLocationContext (some md)) 17 ("escape/${runHash}".data))), ?_⟩
  apply hpart1
  rw [hloc, hcomp]
  exact validateLocation_dotdot _

/-- C4 witness: with the escaping template, `observe_once` fails fast with
no filesystem change and an empty trace. -/
theorem c4_unsafe_location_fails_fast_witness :
    ∃ e, observeOnce ⟨[], []⟩ c4Config [] c3Metadata 0 = (⟨[], []⟩, [], .error e) :=
  (c4_unsafe_location_fails_fast ⟨[], []⟩ c4Config [] c3Metadata 0).2 rfl

/-- C7 witness: concrete instances of both failure cases. -/
theorem c7_mode_validation_witness :
    (∃ e, agentRun ⟨[], []⟩ (some ⟨"s", []⟩)
      { observation := { mode := "timer", window := none }, report := {}, measurements := [] }
      [] none [] sampleClock "deadbeef" 0 = (⟨[], []⟩, [], .error e)) ∧
    (∃ e, agentRun ⟨[], []⟩ (some ⟨"s", []⟩)
      { observation := { mode := "trigger", window := some ⟨1, 1, 2⟩ }, report := {}, measurements := [] }
      [] none [] sampleClock "deadbeef" 0 = (⟨[], []⟩, [], .error e)) :=
  ⟨(c7_mode_validation ⟨[], []⟩ ⟨"s", []⟩
      { observation := { mode := "timer", window := none }, report := {}, measurements := [] }
      [] none [] sampleClock "deadbeef" 0).1 rfl rfl,
   (c7_mode_validation ⟨[], []⟩ ⟨"s", []⟩
      { observation := { mode := "trigger", window := some ⟨1, 1, 2⟩ }, report := {}, measurements := [] }
      [] none [] sampleClock "deadbeef" 0).2 rfl rfl⟩

/-! ## String and path lemmas for the round-trip claim -/

theorem pyIsAbs_append (a b : String) (ha : pyIsAbs a = false)
    (hb : pyIsAbs b = false) : pyIsAbs (a ++ b) = false := by
  unfold pyIsAbs at *
  rw [String.data_append]
  cases hd : a.data with
  | nil => simpa using hb
  | cons c cs =>
    rw [hd] at ha
    simpa using (by simpa using ha : c ≠ '/')

theorem osPathJoin_right_inj {a b c : String} (hb : pyIsAbs b = false)
    (hc : pyIsAbs c = false) (h : osPathJoin a b = osPathJoin a c) : b = c := by
  unfold osPathJoin at h
  rw [hb, hc] at h
  simp only [Bool.false_eq_true, if_false] at h
  by_cases ha : a = ""
  · simpa [ha] using h
  · by_cases hsep : endsWithSep a
    · rw [if_neg ha, if_neg ha, if_pos hsep, if_pos hsep] at h
      have hdat := congrArg String.data h
      rw [String.data_append, String.data_append] at hdat
      exact String.ext (List.append_cancel_left hdat)
    · rw [if_neg ha, if_neg ha, if_neg hsep, if_neg hsep] at h
      have hdat := congrArg String.data h
      simp only [String.data_append, List.append_assoc] at hdat
      exact String.ext (List.append_cancel_left (List.append_cancel_left hdat))

theorem osPathJoin_ne_of_ne {a b c : String} (hb : pyIsAbs b = false)
    (hc : pyIsAbs c = false) (hbc : b ≠ c) : osPathJoin a b ≠ osPathJoin a c :=
  fun h => hbc (osPathJoin_right_inj hb hc h)

theorem append_right_ne_empty (a b : String) (hb : b ≠ "") : a ++ b ≠ "" := by
  intro h
  have hdat := congrArg String.data h
  rw [String.data_append] at hdat
  exact hb (String.ext (List.append_eq_nil.mp hdat).2)

theorem endsWithSep_append_data (a : String) : endsWithSep (a ++ "data") = false := by
  unfold endsWithSep
  rw [String.data_append]
  rw [List.getLast?_append]
  simp [show ("data" : String).data = ['d', 'a', 't', 'a'] from rfl]

/-- Joining under the `data/` subdirectory is joining the `data/`-prefixed
name under the report location. -/
theorem osPathJoin_data_dir (a c : String) (hc : pyIsAbs c = false) :
    osPathJoin (osPathJoin a "data") c = osPathJoin a ("data/" ++ c) := by
  have hdf : pyIsAbs ("data" : String) = false := by decide
  have hdpf : pyIsAbs ("data/" ++ c) = false := pyIsAbs_append "data/" c (by decide) hc
  have hde : ¬ (("data" : String) = "") := by decide
  have hds : ¬ (endsWithSep "data" = true) := by decide
  by_cases ha : a = ""
  · subst ha
    simp only [osPathJoin, hc, hdf, hdpf, hde, hds, Bool.false_eq_true, if_false,
      ite_true, ite_false, if_true, eq_self_iff_true]
    apply String.ext
    simp [String.data_append,
      show ("data/" : String).data = ['d', 'a', 't', 'a', '/'] from rfl,
      show ("data" : String).data = ['d', 'a', 't', 'a'] from rfl,
      show ("/" : String).data = ['/'] from rfl]
  · by_cases hsep : endsWithSep a
    · simp only [osPathJoin, hc, hdf, hdpf, hde, hds, ha, hsep, Bool.false_eq_true,
        if_false, ite_true, ite_false, if_true,
        append_right_ne_empty a "data" (by decide), endsWithSep_append_data a]
      apply String.ext
      simp [String.data_append, List.append_assoc,
        show ("data/" : String).data = ['d', 'a', 't', 'a', '/'] from rfl,
        show ("data" : String).data = ['d', 'a', 't', 'a'] from rfl,
        show ("/" : String).data = ['/'] from rfl]
    · simp only [osPathJoin, hc, hdf, hdpf, hde, hds, ha, hsep, Bool.false_eq_true,
        if_false, ite_true, ite_false, if_true,
        append_right_ne_empty (a ++ "/") "data" (by decide),
        endsWithSep_append_data (a ++ "/")]
      apply String.ext
      simp [String.data_append, List.append_assoc,
        show ("data/" : String).data = ['d', 'a', 't', 'a', '/'] from rfl,
        show ("data" : String).data = ['d', 'a', 't', 'a'] from rfl,
        show ("/" : String).data = ['/'] from rfl]

/-- A `data/`-prefixed file name differs from any name starting with another
character. -/
theorem dataPrefix_ne (fn m : String) (hm : m.data.head? ≠ some 'd') :
    "data/" ++ fn ≠ m := by
  intro h
  apply hm
  rw [← h, String.data_append]
  rw [show ("data/" : String).data = ['d', 'a', 't', 'a', '/'] from rfl]
  rfl

/-- Appending the `.csv` suffix is injective. -/
theorem csvName_inj {a b : String} (h : a ++ "." ++ "csv" = b ++ "." ++ "csv") :
    a = b := by
  have hdat := congrArg String.data h
  simp only [String.data_append, List.append_assoc] at hdat
  exact String.ext (List.append_cancel_right hdat)

/-! ## Filesystem lemmas for the round-trip claim -/

theorem FS.read_write_self (fs : FS) (p : String) (f : FsFile) :
    (fs.write p f).read p = some f := by
  simp [FS.read, FS.write, List.lookup]

theorem FS.read_write_ne (fs : FS) {p q : String} (f : FsFile) (h : q ≠ p) :
    (fs.write p f).read q = fs.read q := by
  simp [FS.read, FS.write, List.lookup, beq_eq_false_iff_ne.mpr h]

theorem FS.read_mkdir (fs : FS) (d p : String) : (fs.mkdir d).read p = fs.read p := rfl

theorem lookup_write_isSome (files : List (String × FsFile)) (p q : String) (f : FsFile)
    (h : (files.lookup q).isSome = true) : (((p, f) :: files).lookup q).isSome = true := by
  by_cases hq : (q == p) = true
  · simp [List.lookup, hq]
  · simp only [List.lookup, hq]
    exact h

theorem FS.pathExists_write (fs : FS) (p q : String) (f : FsFile)
    (h : fs.pathExists q = true) : (fs.write p f).pathExists q = true := by
  simp only [FS.pathExists, FS.write, Bool.or_eq_true] at h ⊢
  rcases h with h | h
  · exact Or.inl h
  · exact Or.inr (lookup_write_isSome _ _ _ _ h)

theorem FS.pathExists_mkdir (fs : FS) (d q : String)
    (h : fs.pathExists q = true) : (fs.mkdir d).pathExists q = true := by
  simp only [FS.pathExists, FS.mkdir, Bool.or_eq_true, List.contains_cons] at h ⊢
  rcases h with h | h
  · exact Or.inl (Or.inr h)
  · exact Or.inr h

theorem pathExists_getOrMake (fs : FS) (r : Report) :
    ((getOrMakeReportLocation fs r).1).pathExists r.location = true := by
  unfold getOrMakeReportLocation
  split
  · rename_i h
    exact h
  · simp [FS.pathExists, FS.mkdir]

theorem pathExists_foldl_write (data : List (String × DataFrame)) (fs : FS)
    (g : (String × DataFrame) → String) (q : String) (h : fs.pathExists q = true) :
    (data.foldl (fun f p => f.write (g p) (.csv p.2)) fs).pathExists q = true := by
  induction data generalizing fs with
  | nil => exact h
  | cons hd tl ih => exact ih _ (FS.pathExists_write _ _ _ _ h)

theorem read_foldl_write_of_ne (data : List (String × DataFrame)) (fs : FS)
    (g : (String × DataFrame) → String) (q : String) (h : ∀ p ∈ data, g p ≠ q) :
    (data.foldl (fun f p => f.write (g p) (.csv p.2)) fs).read q = fs.read q := by
  induction data generalizing fs with
  | nil => rfl
  | cons hd tl ih =>
    rw [List.foldl_cons, ih _ (fun p hp => h p (List.mem_cons_of_mem _ hp)),
      FS.read_write_ne _ _ (fun he => h hd (List.mem_cons_self _ _) he.symm)]

theorem read_foldl_write_mem (data : List (String × DataFrame)) (fs : FS)
    (g : (String × DataFrame) → String) (n : String) (df : DataFrame)
    (hmem : (n, df) ∈ data)
    (hinj : ∀ p ∈ data, g p = g (n, df) → p = (n, df)) :
    (data.foldl (fun f p => f.write (g p) (.csv p.2)) fs).read (g (n, df))
      = some (.csv df) := by
  induction data generalizing fs with
  | nil => exact absurd hmem (List.not_mem_nil _)
  | cons hd tl ih =>
    by_cases hmem2 : (n, df) ∈ tl
    · exact ih _ hmem2 (fun p hp => hinj p (List.mem_cons_of_mem _ hp))
    · have hhd : hd = (n, df) := by
        rcases List.mem_cons.mp hmem with h | h
        · exact h.symm
        · exact absurd h hmem2
      subst hhd
      rw [List.foldl_cons]
      rw [read_foldl_write_of_ne _ _ _ _ (fun p hp he => by
        have := hinj p (List.mem_cons_of_mem _ hp) he
        subst this
        exact hmem2 hp)]
      exact FS.read_write_self _ _ _

/-! ## The successful persist, unfolded -/

/-- On CSV format the data-file loop never fails: it writes each frame and
returns the manifest index entries in order. -/
theorem persistDataFiles_csv (fs : FS) (dd : String) (data : List (String × DataFrame)) :
    persistDataFiles fs dd "csv" data =
      (data.foldl (fun f p => f.write (osPathJoin dd (p.1 ++ "." ++ "csv")) (.csv p.2)) fs,
       .ok (data.map (fun p => (p.1, ⟨p.1 ++ "." ++ "csv", p.2.nrows, p.2.columns⟩)))) := by
  induction data generalizing fs with
  | nil => simp [persistDataFiles]
  | cons hd tl ih =>
    obtain ⟨n, df⟩ := hd
    simp [persistDataFiles, ih]

/-- A persist of a CSV-format report succeeds and produces exactly the
`persistFS` filesystem. -/
theorem persist_csv_spec (fs0 : FS) (rep : Report)
    (extras : Option (List (String × String))) (t : Int)
    (hfmt : rep.config.report.format = "csv") :
    ReportStore.persist fs0 rep extras t = (persistFS fs0 rep extras t, .ok rep.location) := by
  unfold ReportStore.persist persistFS
  rw [getOrMake_loc, hfmt]
  dsimp only
  rw [persistDataFiles_csv]
  simp only [persistRunJson, persistManifest, hfmt]

/-! ## Reading back a persisted report -/

theorem pyIsAbs_csvName (n : String) (h : pyIsAbs n = false) :
    pyIsAbs (n ++ "." ++ "csv") = false :=
  pyIsAbs_append _ _ (pyIsAbs_append _ _ h (by decide)) (by decide)

theorem dataPath_ne_metaPath (loc n m : String) (hn : pyIsAbs n = false)
    (hmabs : pyIsAbs m = false) (hmhead : m.data.head? ≠ some 'd') :
    osPathJoin (osPathJoin loc "data") (n ++ "." ++ "csv") ≠ osPathJoin loc m := by
  rw [osPathJoin_data_dir _ _ (pyIsAbs_csvName n hn)]
  exact osPathJoin_ne_of_ne
    (pyIsAbs_append "data/" _ (by decide) (pyIsAbs_csvName n hn)) hmabs
    (dataPrefix_ne _ _ hmhead)

theorem eq_of_mem_of_nodupKeys {α : Type} {l : List (String × α)}
    (h : (l.map Prod.fst).Nodup) {p q : String × α} (hp : p ∈ l) (hq : q ∈ l)
    (hk : p.1 = q.1) : p = q := by
  induction l with
  | nil => cases hp
  | cons hd tl ih =>
    have hn := List.nodup_cons.mp
      (show (hd.1 :: tl.map Prod.fst).Nodup by simpa using h)
    rcases List.mem_cons.mp hp with hp1 | hp1 <;> rcases List.mem_cons.mp hq with hq1 | hq1
    · rw [hp1, hq1]
    · subst hp1
      exact absurd (hk ▸ List.mem_map_of_mem Prod.fst hq1) hn.1
    · subst hq1
      exact absurd (hk ▸ List.mem_map_of_mem Prod.fst hp1) (by
        intro hmem
        exact hn.1 (by simpa [← hk] using hmem))
    · exact ih hn.2 hp1 hq1

theorem persistFS_read_manifest (fs0 : FS) (rep : Report)
    (extras : Option (List (String × String))) (t : Int) :
    (persistFS fs0 rep extras t).read (osPathJoin rep.location "manifest.json")
      = some (.manifestJson (persistManifest rep t)) := by
  unfold persistFS
  exact FS.read_write_self _ _ _

theorem persistFS_read_session (fs0 : FS) (rep : Report)
    (extras : Option (List (String × String))) (t : Int) :
    (persistFS fs0 rep extras t).read (osPathJoin rep.location "session.json")
      = some (.sessionJson rep.metadata.session.name rep.metadata.session.extras) := by
  have h_mp : osPathJoin rep.location "session.json" ≠ osPathJoin rep.location "manifest.json" :=
    osPathJoin_ne_of_ne (by decide) (by decide) (by decide)
  have h_cp : osPathJoin rep.location "session.json" ≠ osPathJoin rep.location "config.yaml" :=
    osPathJoin_ne_of_ne (by decide) (by decide) (by decide)
  have h_rp : osPathJoin rep.location "session.json" ≠ osPathJoin rep.location "run.json" :=
    osPathJoin_ne_of_ne (by decide) (by decide) (by decide)
  unfold persistFS
  dsimp only
  rw [FS.read_write_ne _ _ h_mp]
  repeat' split
  all_goals
    first
    | (rw [FS.read_write_ne _ _ h_cp, FS.read_write_ne _ _ h_rp]
       exact FS.read_write_self _ _ _)
    | (rw [FS.read_write_ne _ _ h_rp]
       exact FS.read_write_self _ _ _)

theorem persistFS_read_run (fs0 : FS) (rep : Report)
    (extras : Option (List (String × String))) (t : Int) :
    (persistFS fs0 rep extras t).read (osPathJoin rep.location "run.json")
      = some (.runJson (persistRunJson rep.metadata.run extras)) := by
  have h_mp : osPathJoin rep.location "run.json" ≠ osPathJoin rep.location "manifest.json" :=
    osPathJoin_ne_of_ne (by decide) (by decide) (by decide)
  have h_cp : osPathJoin rep.location "run.json" ≠ osPathJoin rep.location "config.yaml" :=
    osPathJoin_ne_of_ne (by decide) (by decide) (by decide)
  unfold persistFS
  dsimp only
  rw [FS.read_write_ne _ _ h_mp]
  repeat' split
  all_goals
    first
    | (rw [FS.read_write_ne _ _ h_cp]
       exact FS.read_write_self _ _ _)
    | exact FS.read_write_self _ _ _

theorem persistFS_read_data (fs0 : FS) (rep : Report)
    (extras : Option (List (String × String))) (t : Int)
    (hfmt : rep.config.report.format = "csv")
    (hnodup : (rep.observations.map Prod.fst).Nodup)
    (hnonabs : ∀ p ∈ rep.observations, pyIsAbs p.1 = false)
    (n : String) (df : DataFrame) (hmem : (n, df) ∈ rep.observations) :
    (persistFS fs0 rep extras t).read
      (osPathJoin (osPathJoin rep.location "data") (n ++ "." ++ "csv"))
      = some (.csv df) := by
  have hn : pyIsAbs n = false := hnonabs _ hmem
  have h_mp := dataPath_ne_metaPath rep.location n "manifest.json" hn (by decide) (by decide)
  have h_sp := dataPath_ne_metaPath rep.location n "session.json" hn (by decide) (by decide)
  have h_rp := dataPath_ne_metaPath rep.location n "run.json" hn (by decide) (by decide)
  have h_cp := dataPath_ne_metaPath rep.location n "config.yaml" hn (by decide) (by decide)
  have hinj : ∀ p ∈ rep.observations,
      osPathJoin (osPathJoin rep.location "data") (p.1 ++ "." ++ "csv") =
        osPathJoin (osPathJoin rep.location "data") (n ++ "." ++ "csv") → p = (n, df) := by
    intro p hp he
    have hkey : p.1 = n := csvName_inj
      (osPathJoin_right_inj (pyIsAbs_csvName _ (hnonabs _ hp)) (pyIsAbs_csvName _ hn) he)
    exact eq_of_mem_of_nodupKeys hnodup hp hmem hkey
  unfold persistFS
  dsimp only
  simp only [hfmt]
  rw [FS.read_write_ne _ _ h_mp]
  have hfold : ∀ fs2 : FS,
      (rep.observations.foldl (fun f p =>
        f.write (osPathJoin (osPathJoin rep.location "data") (p.1 ++ "." ++ "csv"))
          (.csv p.2)) fs2).read
        (osPathJoin (osPathJoin rep.location "data") (n ++ "." ++ "csv"))
        = some (.csv df) := by
    intro fs2
    exact read_foldl_write_mem rep.observations fs2
      (fun p => osPathJoin (osPathJoin rep.location "data") (p.1 ++ "." ++ "csv"))
      n df hmem hinj
  repeat' split
  all_goals
    first
    | (rw [FS.read_write_ne _ _ h_cp, FS.read_write_ne _ _ h_rp, FS.read_write_ne _ _ h_sp]
       exact hfold _)
    | (rw [FS.read_write_ne _ _ h_rp, FS.read_write_ne _ _ h_sp]
       exact hfold _)

theorem persistFS_pathExists (fs0 : FS) (rep : Report)
    (extras : Option (List (String × String))) (t : Int) :
    (persistFS fs0 rep extras t).pathExists rep.location = true := by
  unfold persistFS
  dsimp only
  apply FS.pathExists_write
  repeat' split
  all_goals
    repeat'
      first
      | exact pathExists_getOrMake fs0 rep
      | exact FS.pathExists_mkdir _ _ _ (pathExists_getOrMake fs0 rep)
      | apply FS.pathExists_write
      | apply pathExists_foldl_write

/-- Loading the data files back from the manifest index reproduces the
observation tables. -/
theorem loadDataFiles_spec (fs : FS) (dd fmt : String) (data : List (String × DataFrame))
    (hread : ∀ p ∈ data, fs.read (osPathJoin dd (p.1 ++ "." ++ "csv")) = some (.csv p.2)) :
    loadDataFiles fs dd fmt
      (data.map (fun p => (p.1, ⟨p.1 ++ "." ++ "csv", p.2.nrows, p.2.columns⟩)))
      = .ok data := by
  induction data with
  | nil => simp [loadDataFiles]
  | cons hd tl ih =>
    obtain ⟨n, df⟩ := hd
    simp only [List.map_cons, loadDataFiles]
    rw [hread (n, df) (List.mem_cons_self _ _)]
    rw [ih (fun p hp => hread p (List.mem_cons_of_mem _ hp))]

/-- C5: round-trip.  For every CSV-format report whose construction
validated its location — and whose second-truncated metadata also computes a
valid location, which holds for every location template that does not embed
sub-second duration values — loading the directory a successful `persist`
returned yields a report with the same session name, the same run timing
fields to second precision, the same `runHash`, and the same observation
tables: the same measurement names with exactly the row and column counts
recorded in the manifest. -/
theorem c5_round_trip (fs0 : FS) (md : ReportMetadata) (config : Config)
    (data : List (String × DataFrame)) (rep : Report) (created_at : Int)
    (fs2 : FS) (loc : String) (loc2 : String)
    (hfmt : config.report.format = "csv")
    (hnodup : (data.map Prod.fst).Nodup)
    (hnonabs : ∀ p ∈ data, pyIsAbs p.1 = false)
    (hmk : Report.make md config data = .ok rep)
    (hpersist : ReportStore.persist fs0 rep none created_at = (fs2, .ok loc))
    (hval2 : calculateLocation config.report.location (truncMeta md) = .ok loc2) :
    ∃ rep2, ReportStore.load_from_location fs2 loc config = .ok rep2 ∧
      rep2.metadata = truncMeta md ∧
      rep2.metadata.session.name = md.session.name ∧
      rep2.metadata.run.runHash = md.run.runHash ∧
      rep2.metadata.run.startTime.sec = md.run.startTime.sec ∧
      rep2.metadata.run.endTime.sec = md.run.endTime.sec ∧
      rep2.metadata.run.treatment_start.sec = md.run.treatment_start.sec ∧
      rep2.metadata.run.treatment_end.sec = md.run.treatment_end.sec ∧
      rep2.observations = data ∧
      rep2.measurments = rep.measurments := by
  -- decompose the successful construction
  unfold Report.make at hmk
  cases hcl : calculateLocation config.report.location md with
  | error e => rw [hcl] at hmk; simp [Except.map] at hmk
  | ok loc0 =>
    rw [hcl] at hmk
    simp only [Except.map, Except.ok.injEq] at hmk
    subst hmk
    -- decompose the successful persist
    rw [persist_csv_spec fs0 _ none created_at hfmt] at hpersist
    simp only [Prod.mk.injEq, Except.ok.injEq] at hpersist
    obtain ⟨hfs2, hloc⟩ := hpersist
    subst hfs2
    subst hloc
    -- the loaded data files
    have hreads : ∀ p ∈ data,
        (persistFS fs0 ⟨md, config, data, loc0⟩ none created_at).read
          (osPathJoin (osPathJoin (Report.mk md config data loc0).location "data")
            (p.1 ++ "." ++ "csv"))
          = some (.csv p.2) := by
      intro p hp
      obtain ⟨n, df⟩ := p
      exact persistFS_read_data fs0 ⟨md, config, data, loc0⟩ none created_at hfmt
        hnodup hnonabs n df hp
    have hload := loadDataFiles_spec (persistFS fs0 ⟨md, config, data, loc0⟩ none created_at)
      (osPathJoin (Report.mk md config data loc0).location "data") "csv" data hreads
    -- walk the loader
    have hex := persistFS_pathExists fs0 ⟨md, config, data, loc0⟩ none created_at
    have hfinal : ReportStore.load_from_location
        (persistFS fs0 ⟨md, config, data, loc0⟩ none created_at)
        (Report.mk md config data loc0).location config
        = Report.make (truncMeta md) config data := by
      unfold ReportStore.load_from_location
      rw [if_neg (by simp [hex])]
      rw [persistFS_read_manifest]
      simp only [persistManifest]
      rw [if_neg (by decide), if_pos (by decide)]
      unfold ReportStore.loadV1_1
      dsimp only
      rw [persistFS_read_session, persistFS_read_run]
      simp only [hfmt, Option.getD_some] at hload ⊢
      rw [hload]
      rfl
    rw [hfinal]
    unfold Report.make
    rw [hval2]
    exact ⟨⟨truncMeta md, config, data, loc2⟩, rfl, rfl, rfl, rfl, rfl, rfl, rfl, rfl,
      rfl, rfl⟩

/-- C5 witness: a concrete persist/load round trip. -/
theorem c5_round_trip_witness :
    ∃ rep2, ReportStore.load_from_location (persistFS ⟨[], []⟩ c5Rep none 0)
        "reports/0_deadbeef/" timerConfig = .ok rep2 ∧
      rep2.metadata = truncMeta c3Metadata ∧
      rep2.metadata.session.name = c3Metadata.session.name ∧
      rep2.metadata.run.runHash = c3Metadata.run.runHash ∧
      rep2.metadata.run.startTime.sec = c3Metadata.run.startTime.sec ∧
      rep2.metadata.run.endTime.sec = c3Metadata.run.endTime.sec ∧
      rep2.metadata.run.treatment_start.sec = c3Metadata.run.treatment_start.sec ∧
      rep2.metadata.run.treatment_end.sec = c3Metadata.run.treatment_end.sec ∧
      rep2.observations = c5Data ∧
      rep2.measurments = c5Rep.measurments :=
  c5_round_trip ⟨[], []⟩ c3Metadata timerConfig c5Data c5Rep 0
    (persistFS ⟨[], []⟩ c5Rep none 0) "reports/0_deadbeef/" "reports/0_deadbeef/"
    rfl (by decide) (by decide) rfl rfl rfl

end SMA
